import Mathlib

/-!
Verification development for the kea-pd-hook library (src/pd_webhook.cc and
src/netbox_client.cc): a Kea DHCPv6 hook that derives topology metadata from
DHCPv6 packets and reconciles delegated prefixes into a NetBox inventory.

The definitions below are a shallow embedding of the C++ source.  Machine
integers are modelled as `Nat` (all values involved are small and unsigned at
the points the code uses them); C++ strings are Lean `String`s; the raw bytes
of vectors and of the in-memory `RelayInfo` structure are `List Nat` with each
element a byte value.  Where the code calls `isc::asiolink::IOAddress` to
parse a textual IPv6 address it itself just produced from 16 bytes and then
re-prints it, the embedding fuses the round trip into `compressIPv6` applied
to those 16 bytes, which is what the parse-then-print computes (the parse of
such a string never fails, so the catch-branches are dead).
-/

/-! ## Basic formatting helpers (ostream `std::hex`, `std::setw`, decimal) -/

/-- Lowercase hexadecimal digit character, as `std::hex` prints one digit. -/
def hexDigitChar (n : Nat) : Char :=
  if n < 10 then Char.ofNat (48 + n) else Char.ofNat (87 + n)

/-- Auxiliary for `hexNoPad`: most-significant-first digit list, with fuel to
keep the recursion structural. -/
def hexNatAux : Nat → Nat → List Char → List Char
  | 0, _, acc => acc
  | fuel + 1, n, acc =>
    if n = 0 then acc
    else hexNatAux fuel (n / 16) (hexDigitChar (n % 16) :: acc)

/-- `std::hex` printing of an unsigned value with no width: minimal lowercase
hex digits, and "0" for zero. -/
def hexNoPad (n : Nat) : String :=
  if n = 0 then "0" else String.mk (hexNatAux n n [])

/-- `std::hex << std::setw(2) << std::setfill('0')` printing of an unsigned
value: at least two lowercase hex digits. -/
def hexSetw2 (n : Nat) : String :=
  if n < 16 then "0" ++ hexNoPad n else hexNoPad n

/-- Decimal digit character. -/
def decDigitChar (d : Nat) : Char := Char.ofNat (48 + d)

/-- Auxiliary for `decRepr`: most-significant-first decimal digits, with fuel
to keep the recursion structural. -/
def decReprAux : Nat → Nat → List Char → List Char
  | 0, _, acc => acc
  | fuel + 1, n, acc =>
    if n < 10 then decDigitChar n :: acc
    else decReprAux fuel (n / 10) (decDigitChar (n % 10) :: acc)

/-- Decimal rendering of an unsigned value, as `std::to_string` and
`operator<<` print it. -/
def decRepr (n : Nat) : String := String.mk (decReprAux (n + 1) n [])

/-- `s.find(p) == 0` on C++ strings: `s` starts with `p`.  Implemented over
the character lists so that it evaluates by kernel reduction. -/
def strStartsWith (s p : String) : Bool := p.data.isPrefixOf s.data

/-! ## IPv6 textual form (`isc::asiolink::IOAddress::toText`)

`IOAddress::toText` prints an IPv6 address the way POSIX `inet_ntop` does:
lowercase hex groups without leading zeros, the leftmost longest run of at
least two zero groups compressed to "::", and the IPv4-embedded special forms
printed with a dotted quad. -/

/-- The 8 16-bit groups of a 16-byte IPv6 address. -/
def ipv6Groups : List Nat → List Nat
  | a :: b :: t => (a * 256 + b) :: ipv6Groups t
  | [a] => [a * 256]
  | [] => []

/-- Length of the initial run of zero groups. -/
def zeroRunLen : List Nat → Nat
  | 0 :: t => zeroRunLen t + 1
  | _ => 0

/-- Leftmost longest run of zero groups, as `(start, length)`; `(0, 0)` when
there is no zero group. -/
def bestZeroRun (gs : List Nat) : Nat × Nat :=
  (List.range gs.length).foldl
    (fun b i =>
      let len := zeroRunLen (gs.drop i)
      if len > b.2 then (i, len) else b)
    (0, 0)

/-- Dotted-quad rendering of the last four bytes (IPv4-embedded forms). -/
def ipv4Quad (bs : List Nat) : String :=
  decRepr (bs.getD 12 0) ++ "." ++ decRepr (bs.getD 13 0) ++ "." ++
    decRepr (bs.getD 14 0) ++ "." ++ decRepr (bs.getD 15 0)

/-- Canonical `inet_ntop`-style text of a 16-byte IPv6 address. -/
def compressIPv6 (bs : List Nat) : String :=
  let gs := ipv6Groups bs
  let best := bestZeroRun gs
  if best.2 < 2 then
    String.intercalate ":" (gs.map hexNoPad)
  else if best.1 = 0 &&
      (best.2 = 6 || (best.2 = 7 && gs.getD 7 0 ≠ 1) ||
        (best.2 = 5 && gs.getD 5 0 = 65535)) then
    -- IPv4-embedded special case of inet_ntop ("::a.b.c.d", "::ffff:a.b.c.d")
    "::" ++ (if best.2 = 5 then "ffff:" else "") ++ ipv4Quad bs
  else
    String.intercalate ":" ((gs.take best.1).map hexNoPad) ++ "::" ++
      String.intercalate ":" ((gs.drop (best.1 + best.2)).map hexNoPad)

/-! ## Packet model (the view of `isc::dhcp::Pkt6` the hook reads) -/

/-- An `isc::asiolink::IOAddress`, kept as its 16 raw bytes. -/
structure IOAddress where
  bytes : List Nat
deriving DecidableEq

/-- `IOAddress::isV6Zero()`. -/
def IOAddress.isV6Zero (a : IOAddress) : Bool := a.bytes.all (· = 0)

/-- `IOAddress::toText()`. -/
def IOAddress.toText (a : IOAddress) : String := compressIPv6 a.bytes

/-- The view of a decoded `Pkt6` that `pd_webhook.cc` reads: the message
type, the per-hop `relay_info_` entries (each as the raw bytes the code
obtains by `reinterpret_cast`-ing the `RelayInfo` structure), the options
(code to raw data, first match wins), and the transport addresses. -/
structure Pkt6 where
  msg_type : Nat
  relay_info : List (List Nat)
  options : List (Nat × List Nat)
  remote_addr : IOAddress
  local_addr : IOAddress
deriving DecidableEq

/-- `Pkt6::getOption`: the data of the first option with the given code. -/
def Pkt6.getOption (p : Pkt6) (code : Nat) : Option (List Nat) :=
  (p.options.find? (fun o => o.1 = code)).map (·.2)

/-- DHCPv6 message-type constants (src/mock_kea/dhcp6/dhcp6.h). -/
def DHCPV6_SOLICIT : Nat := 1
def DHCPV6_REQUEST : Nat := 3
def DHCPV6_RENEW : Nat := 5
def DHCPV6_CONFIRM : Nat := 4
def DHCPV6_RELEASE : Nat := 8
def DHCPV6_DECLINE : Nat := 9
def DHCPV6_INFORMATION_REQUEST : Nat := 11
def DHCPV6_RELAY_FORW : Nat := 12
def DHCPV6_RELAY_REPL : Nat := 13

/-- DHCPv6 option codes.  `D6O_CLIENTID`, `D6O_RAPID_COMMIT` and `D6O_IA_PD`
are in src/mock_kea/dhcp6/dhcp6.h; `D6O_RELAY_MSG` is used by pd_webhook.cc
and carries its standard value 9 from the real Kea headers. -/
def D6O_CLIENTID : Nat := 1
def D6O_RELAY_MSG : Nat := 9
def D6O_RAPID_COMMIT : Nat := 14
def D6O_IA_PD : Nat := 25

/-! ## Hex encoding of option data (`toHex` in pd_webhook.cc) -/

/-- `toHex`: each byte as two lowercase hex digits. -/
def toHex (data : List Nat) : String := String.join (data.map hexSetw2)

/-- `extractClientDuid` (pd_webhook.cc): hex of the CLIENTID option data, or
"" when the option is absent. -/
def extractClientDuid (q : Pkt6) : String :=
  match q.getOption D6O_CLIENTID with
  | some d => toHex d
  | none => ""

/-! ## extractCpeLinkLocal (pd_webhook.cc lines 299-550) -/

/-- The per-byte colon formatting both scan loops and both RELAY_MSG loops
use: first byte unpadded, then two-digit bytes with a ":" before every even
position. -/
def fmtBytesColon (bs : List Nat) : String :=
  String.join (bs.enum.map (fun jb =>
    if jb.1 = 0 then hexNoPad jb.2
    else if jb.1 % 2 = 0 then ":" ++ hexSetw2 jb.2
    else hexSetw2 jb.2))

/-- The `fe80`-pattern scan over the raw `RelayInfo` bytes (lines 349-387):
the first position `i` with `i < len - 1`, bytes `0xfe 0x80` at `i`, and 16
bytes available yields the 16-byte slice there, formatted and then
compressed through `IOAddress` (the formatted text always starts with
"fe80", and always parses, so the inner checks always take the successful
branch).  Recursion is fuelled by the number of remaining positions. -/
def scanFe80From (bytes : List Nat) : Nat → Nat → Option String
  | 0, _ => none
  | fuel + 1, i =>
    if i + 1 < bytes.length then
      if bytes.getD i 0 = 254 && bytes.getD (i + 1) 0 = 128 &&
          decide (i + 16 ≤ bytes.length) then
        some (compressIPv6 ((bytes.drop i).take 16))
      else scanFe80From bytes fuel (i + 1)
    else none

/-- The DUID fallback (lines 462-534): for a DUID-LLT (type 1) or DUID-LL
(type 3) with Ethernet hardware type, build a link-local address from the
embedded MAC with the universal/local bit of the first octet flipped and
`ff`/`fe` inserted, printed as fixed-width two-digit bytes. -/
def duidLinkLocal (q : Pkt6) : Option String :=
  match q.getOption D6O_CLIENTID with
  | none => none
  | some d =>
    if 8 ≤ d.length then
      let duid_type := d.getD 0 0 * 256 + d.getD 1 0
      if duid_type = 1 ∨ duid_type = 3 then
        let hw_type := d.getD 2 0 * 256 + d.getD 3 0
        if hw_type = 1 then
          let mac_offset := if duid_type = 1 then 8 else 4
          if mac_offset + 6 ≤ d.length then
            let m0 := d.getD mac_offset 0 ^^^ 2
            some ("fe80::" ++ hexSetw2 m0 ++ hexSetw2 (d.getD (mac_offset + 1) 0) ++
              ":" ++ hexSetw2 (d.getD (mac_offset + 2) 0) ++ "ff" ++
              ":fe" ++ hexSetw2 (d.getD (mac_offset + 3) 0) ++
              ":" ++ hexSetw2 (d.getD (mac_offset + 4) 0) ++
              hexSetw2 (d.getD (mac_offset + 5) 0))
          else none
        else none
      else none
    else none

/-- Lines 536-549: with `peer_address` as accumulated, return it if
non-empty; otherwise fall back to the packet's remote (source) address when
its text is link-local; otherwise return "unknown". -/
def cpeAfterDuid (q : Pkt6) (peer_address : String) : String :=
  if peer_address ≠ "" then peer_address
  else if ¬ q.remote_addr.isV6Zero ∧
      strStartsWith q.remote_addr.toText "fe80::" then
    q.remote_addr.toText
  else "unknown"

/-- Lines 461-534 followed by the tail of the function: try the DUID-derived
link-local; it is returned exactly when the accumulated `peer_address` is
empty or does not start with "fe80". -/
def cpeAfterRelayBlocks (q : Pkt6) (peer_address : String) : String :=
  match duidLinkLocal q with
  | some ll =>
    if peer_address = "" ∨ ¬ strStartsWith peer_address "fe80" then ll
    else cpeAfterDuid q peer_address
  | none => cpeAfterDuid q peer_address

/-- `extractCpeLinkLocal` (pd_webhook.cc lines 299-550).  First the raw scan
of `relay_info_[0]` (guarded by `sizeof(relay) >= 64`); then, for relay
message types, the remote address (returned at once when link-local, kept as
`peer_address` otherwise); for other types the peer-address bytes 18-33 of a
RELAY_MSG option (returned at once when the text starts with "fe80", kept
otherwise); then the DUID fallback, the kept `peer_address`, the link-local
remote address, and finally "unknown". -/
def extractCpeLinkLocal (q : Pkt6) : String :=
  let relayScan : Option String :=
    match q.relay_info with
    | [] => none
    | relay :: _ => if 64 ≤ relay.length then scanFe80From relay relay.length 0 else none
  match relayScan with
  | some s => s
  | none =>
    if q.msg_type = DHCPV6_RELAY_FORW ∨ q.msg_type = DHCPV6_RELAY_REPL then
      if ¬ q.remote_addr.isV6Zero then
        let peer := q.remote_addr.toText
        if strStartsWith peer "fe80::" then peer
        else cpeAfterRelayBlocks q peer
      else cpeAfterRelayBlocks q ""
    else
      match q.getOption D6O_RELAY_MSG with
      | some relay_data =>
        if 34 ≤ relay_data.length then
          let peer := fmtBytesColon ((relay_data.drop 18).take 16)
          if strStartsWith peer "fe80" then peer
          else cpeAfterRelayBlocks q peer
        else cpeAfterRelayBlocks q ""
      | none => cpeAfterRelayBlocks q ""

/-! ## extractRouterIp (pd_webhook.cc lines 552-574) -/

/-- Lines 565-573: the remote address when non-zero and not link-local,
otherwise "unknown". -/
def routerIpFallback (q : Pkt6) : String :=
  if ¬ q.remote_addr.isV6Zero then
    if ¬ strStartsWith q.remote_addr.toText "fe80::" then q.remote_addr.toText
    else "unknown"
  else "unknown"

/-- `extractRouterIp`: with a RELAY_MSG option present, the remote address
when non-zero; otherwise the non-link-local remote address; otherwise
"unknown". -/
def extractRouterIp (q : Pkt6) : String :=
  match q.getOption D6O_RELAY_MSG with
  | some _ =>
    if ¬ q.remote_addr.isV6Zero then q.remote_addr.toText
    else routerIpFallback q
  | none => routerIpFallback q

/-! ## extractRouterLinkAddr (pd_webhook.cc lines 576-734) -/

/-- A single byte read from the raw `RelayInfo` bytes.  An index outside the
structure models the out-of-bounds read the C++ scan can perform through its
wrapped `size_t` arithmetic (undefined behavior); the model reads 0 there. -/
def readByte (bytes : List Nat) (idx : Nat) : Nat :=
  if idx < bytes.length then bytes.getD idx 0 else 0

/-- Lines 613-621: whether an `0xfe 0x80` pair occurs within offsets -10..10
of `i`.  `i + check` is computed in `size_t`, so a negative sum wraps modulo
2^64 before the bounds test and the reads. -/
def nearFe80 (bytes : List Nat) (i : Nat) : Bool :=
  (List.range 21).any (fun k =>
    let idx := (i + k + (2 ^ 64 - 10)) % 2 ^ 64
    decide ((idx + 1) % 2 ^ 64 < bytes.length) &&
      readByte bytes idx = 254 && readByte bytes ((idx + 1) % 2 ^ 64) = 128)

/-- The global-unicast scan over the raw `RelayInfo` bytes (lines 606-661):
at each position whose byte is 0x20, 0x30 or 0x02 with 16 bytes available
and no nearby `fe80` pair, format the 16-byte slice, parse and re-print it
through `IOAddress` (always succeeds), and accept it when it is not
link-local, not "::", not "ff"-prefixed and starts with "2001:". -/
def scanGlobalFrom (bytes : List Nat) : Nat → Nat → Option String
  | 0, _ => none
  | fuel + 1, i =>
    if i + 1 < bytes.length then
      if (bytes.getD i 0 = 32 ∨ bytes.getD i 0 = 48 ∨ bytes.getD i 0 = 2) ∧
          i + 16 ≤ bytes.length then
        if nearFe80 bytes i then scanGlobalFrom bytes fuel (i + 1)
        else
          let formatted := compressIPv6 ((bytes.drop i).take 16)
          if ¬ strStartsWith formatted "fe80::" ∧ formatted ≠ "::" ∧
              ¬ strStartsWith formatted "ff" ∧ strStartsWith formatted "2001:" then
            some formatted
          else scanGlobalFrom bytes fuel (i + 1)
      else scanGlobalFrom bytes fuel (i + 1)
    else none

/-- Lines 663-705: the link-address bytes 16-31 of a RELAY_MSG option,
formatted and re-printed through `IOAddress`, accepted when not link-local,
not "::" and not "ff"-prefixed. -/
def relayMsgLinkAddr (q : Pkt6) : Option String :=
  match q.getOption D6O_RELAY_MSG with
  | none => none
  | some relay_data =>
    if 34 ≤ relay_data.length then
      let formatted := compressIPv6 ((relay_data.drop 16).take 16)
      if ¬ strStartsWith formatted "fe80::" ∧ formatted ≠ "::" ∧
          ¬ strStartsWith formatted "ff" then
        some formatted
      else none
    else none

/-- Lines 723-733: fall back to the packet's local address when non-zero,
not link-local and not "::"; otherwise "unknown". -/
def routerLinkAddrFallback (q : Pkt6) : String :=
  if ¬ q.local_addr.isV6Zero then
    if ¬ strStartsWith q.local_addr.toText "fe80::" ∧ q.local_addr.toText ≠ "::" then
      q.local_addr.toText
    else "unknown"
  else "unknown"

/-- `extractRouterLinkAddr` (pd_webhook.cc lines 576-734): with relay info
present, the raw-byte scan, then the RELAY_MSG link-address (both inside the
`relay_info_.size() > 0` branch); then the local-address fallback. -/
def extractRouterLinkAddr (q : Pkt6) : String :=
  match q.relay_info with
  | relay :: _ =>
    match scanGlobalFrom relay relay.length 0 with
    | some s => s
    | none =>
      match relayMsgLinkAddr q with
      | some s => s
      | none => routerLinkAddrFallback q
  | [] => routerLinkAddrFallback q

/-! ## Leases and assignment data -/

/-- `Lease::Type` (dhcpsrv/lease.h). -/
inductive LeaseType where
  | TYPE_NA
  | TYPE_TA
  | TYPE_PD
deriving DecidableEq

/-- The view of an `isc::dhcp::Lease6` the hook reads. -/
structure Lease6 where
  type_ : LeaseType
  addr_text : String
  prefixlen : Nat
  iaid : Nat
  subnet_id : Nat
  preferred_lft : Nat
  valid_lft : Nat
deriving DecidableEq

/-- `PdAssignmentData` (pd_webhook.cc / netbox_client.h).  The C++ field
`prefix` is called `pfx` here because `prefix` is a Lean keyword. -/
structure PdAssignmentData where
  client_duid : String
  pfx : String
  prefix_length : Nat
  iaid : Nat
  cpe_link_local : String
  router_ip : String
  router_link_addr : String
deriving DecidableEq

/-- `buildAssignmentData` (pd_webhook.cc lines 737-754). -/
def buildAssignmentData (q : Pkt6) (l : Lease6) : PdAssignmentData :=
  { client_duid := extractClientDuid q
    pfx := l.addr_text
    prefix_length := l.prefixlen
    iaid := l.iaid
    cpe_link_local := extractCpeLinkLocal q
    router_ip := extractRouterIp q
    router_link_addr := extractRouterLinkAddr q }

/-! ## Configuration and hook callouts (pd_webhook.cc lines 756-929) -/

/-- `WebhookConfig` (pd_webhook.cc lines 38-48). -/
structure WebhookConfig where
  url : String
  timeout_ms : Nat
  enabled : Bool
  debug : Bool
  netbox_url : String
  netbox_token : String
  netbox_enabled : Bool
deriving DecidableEq

/-- The outward actions a callout performs: a webhook POST with its JSON
body, or an invocation of `sendNetBoxRequest` for one PD lease. -/
inductive HookEffect where
  | webhookPost (payload : String)
  | netboxReconcile (data : PdAssignmentData) (valid_lft preferred_lft : Nat)
deriving DecidableEq

/-- One lease object of the webhook JSON body (pd_webhook.cc lines 809-816). -/
def leaseJson (l : Lease6) : String :=
  "\x7b\"prefix\":\"" ++ l.addr_text ++ "\",\"prefix_length\":" ++
    decRepr l.prefixlen ++ ",\"iaid\":" ++ decRepr l.iaid ++
    ",\"subnet_id\":" ++ decRepr l.subnet_id ++
    ",\"preferred_lft\":" ++ decRepr l.preferred_lft ++
    ",\"valid_lft\":" ++ decRepr l.valid_lft ++ "\x7d"

/-- The webhook JSON body for an assignment (pd_webhook.cc lines 793-820).
The inlined client-DUID hex in the source is the same computation as
`extractClientDuid`. -/
def assignedPayload (query6 response6 : Pkt6) (pd_leases : List Lease6) : String :=
  "\x7b\"event\":\"pd_assigned\",\"msg_type\":" ++ decRepr query6.msg_type ++
    ",\"reply_type\":" ++ decRepr response6.msg_type ++
    ",\"client_duid\":\"" ++ extractClientDuid query6 ++
    "\",\"leases\":[" ++ String.intercalate "," (pd_leases.map leaseJson) ++ "]\x7d"

/-- `notifyPdAssigned` (pd_webhook.cc lines 757-836): keep only PD leases;
when any remain, POST the webhook body if the webhook sink is configured and
invoke `sendNetBoxRequest` once per PD lease if NetBox is enabled. -/
def notifyPdAssigned (cfg : WebhookConfig) (query6 response6 : Pkt6)
    (leases6 : List Lease6) : List HookEffect :=
  match leases6 with
  | [] => []
  | _ =>
    let pd_leases := leases6.filter (fun l => l.type_ = LeaseType.TYPE_PD)
    match pd_leases with
    | [] => []
    | _ =>
      (if cfg.enabled ∧ cfg.url ≠ "" then
        [HookEffect.webhookPost (assignedPayload query6 response6 pd_leases)]
      else []) ++
      (if cfg.netbox_enabled then
        pd_leases.map (fun l =>
          HookEffect.netboxReconcile (buildAssignmentData query6 l) l.valid_lft l.preferred_lft)
      else [])

/-- The arguments Kea passes to the `leases6_committed` callout; `none`
models a null pointer. -/
structure CommittedArgs where
  query6 : Option Pkt6
  response6 : Option Pkt6
  leases6 : Option (List Lease6)
  deleted_leases6 : Option (List Lease6)
deriving DecidableEq

/-- `leases6_committed` (pd_webhook.cc lines 884-929): the returned status
(always 0, "no objection") and the outward effects.  The callout ignores the
event unless the query is a REQUEST or a SOLICIT carrying a rapid-commit
option. -/
def leases6_committed (cfg : WebhookConfig) (args : CommittedArgs) :
    Int × List HookEffect :=
  if ¬ cfg.enabled then (0, [])
  else
    match args.query6, args.response6, args.leases6 with
    | some query6, some response6, some leases6 =>
      let is_request := query6.msg_type = DHCPV6_REQUEST
      let is_rapid_commit := query6.msg_type = DHCPV6_SOLICIT ∧
        (query6.getOption D6O_RAPID_COMMIT).isSome
      if ¬ is_request ∧ ¬ is_rapid_commit then (0, [])
      else (0, notifyPdAssigned cfg query6 response6 leases6)
    | _, _, _ => (0, [])

/-- The arguments Kea passes to the `lease6_renew` callout. -/
structure RenewArgs where
  lease6 : Option Lease6
  query6 : Option Pkt6
deriving DecidableEq

/-- `lease6_renew` (pd_webhook.cc lines 841-881): for a PD lease, rebuild
the assignment data and invoke `sendNetBoxRequest`; always return 0. -/
def lease6_renew (cfg : WebhookConfig) (args : RenewArgs) :
    Int × List HookEffect :=
  if ¬ cfg.netbox_enabled then (0, [])
  else
    match args.lease6, args.query6 with
    | some l, some q =>
      if l.type_ ≠ LeaseType.TYPE_PD then (0, [])
      else (0, [HookEffect.netboxReconcile (buildAssignmentData q l) l.valid_lft l.preferred_lft])
    | _, _ => (0, [])

/-! ## NetBox client (src/netbox_client.cc)

`netbox_client.cc` talks to NetBox over HTTP.  The embedding models the
remote inventory as explicit state (per the REST contract: search by the
`prefix` field, create with a fresh id, PATCH applies exactly the fields
present in the partial body) and models the transport outcome of the lookup
as a `LookupResponse`. -/

/-- `safeParseInt` (netbox_client.cc lines 45-57), i.e. `std::stoi` plus the
all-consumed check: skip leading spaces, an optional sign, then decimal
digits that must reach the end of the string; out-of-int-range values throw
inside `std::stoi` and yield the default. -/
def isDigitChar (c : Char) : Bool := 48 ≤ c.toNat ∧ c.toNat ≤ 57

/-- Sign splitting for `safeParseInt`. -/
def splitSign (cs : List Char) : Bool × List Char :=
  match cs with
  | c :: rest =>
    if c = '-' then (true, rest)
    else if c = '+' then (false, rest)
    else (false, cs)
  | [] => (false, cs)

def safeParseInt (s : String) (default_val : Int) : Int :=
  let cs := s.data.dropWhile (fun c => c = ' ')
  let sr := splitSign cs
  let ds := sr.2
  if ds ≠ [] ∧ ds.all isDigitChar then
    let v : Nat := ds.foldl (fun a c => a * 10 + (c.toNat - 48)) 0
    if sr.1 then (if v ≤ 2147483648 then -(v : Int) else default_val)
    else (if v ≤ 2147483647 then (v : Int) else default_val)
  else default_val

/-- The outcome of the lookup GET as `findPrefixId` examines it: an empty
response string (transport failure), a body that does not parse as JSON with
a "results" array, or the parsed "results" array reduced to the `id` of each
entry as `asString()` returns it. -/
inductive LookupResponse where
  | emptyResponse
  | malformed
  | results (ids : List String)
deriving DecidableEq

/-- `NetBoxClient::findPrefixId` (netbox_client.cc lines 127-152), applied
to the outcome of the GET: -1 for a failed transport, an unparseable body or
an empty results array; otherwise the first entry's id through
`safeParseInt`. -/
def findPrefixId (resp : LookupResponse) : Int :=
  match resp with
  | .emptyResponse => -1
  | .malformed => -1
  | .results [] => -1
  | .results (id0 :: _) => safeParseInt id0 (-1)

/-- The NetBox custom fields written on every active write
(netbox_client.cc lines 164-171 and 203-210). -/
structure NbCustomFields where
  dhcpv6_client_duid : String
  dhcpv6_iaid : Nat
  dhcpv6_cpe_link_local : String
  dhcpv6_router_ip : String
  dhcpv6_router_link_addr : String
  dhcpv6_leasetime : Nat
deriving DecidableEq

/-- One NetBox prefix record, identified by `id`; its `prefix` field is kept
as `pfx` ("<prefix>/<length>"). -/
structure NbRecord where
  id : Nat
  pfx : String
  status : String
  description : String
  custom_fields : NbCustomFields
deriving DecidableEq

/-- A partial PATCH body: exactly the fields present in the JSON payload. -/
structure NbPatch where
  status : Option String
  description : Option String
  custom_fields : Option NbCustomFields
deriving DecidableEq

/-- The remote PATCH semantics (spec section 6: a partial body updates only
the fields it carries). -/
def applyPatch (r : NbRecord) (p : NbPatch) : NbRecord :=
  { r with
    status := p.status.getD r.status
    description := p.description.getD r.description
    custom_fields := p.custom_fields.getD r.custom_fields }

/-- The description both writes embed (netbox_client.cc lines 162 and 201). -/
def descriptionOf (data : PdAssignmentData) : String :=
  "DHCPv6 PD assignment - IAID: " ++ decRepr data.iaid

/-- The custom fields both writes embed; `now` is the reconciliation time,
so `dhcpv6_leasetime` is the absolute expiry `now + valid_lft`. -/
def customFieldsOf (data : PdAssignmentData) (now valid_lft : Nat) : NbCustomFields :=
  { dhcpv6_client_duid := data.client_duid
    dhcpv6_iaid := data.iaid
    dhcpv6_cpe_link_local := data.cpe_link_local
    dhcpv6_router_ip := data.router_ip
    dhcpv6_router_link_addr := data.router_link_addr
    dhcpv6_leasetime := now + valid_lft }

/-- The record content `NetBoxClient::createPrefix` POSTs
(netbox_client.cc lines 154-190), without the server-assigned id. -/
structure NbContent where
  pfx : String
  status : String
  description : String
  custom_fields : NbCustomFields
deriving DecidableEq

def createPrefixPayload (data : PdAssignmentData) (now valid_lft : Nat) : NbContent :=
  { pfx := data.pfx ++ "/" ++ decRepr data.prefix_length
    status := "active"
    description := descriptionOf data
    custom_fields := customFieldsOf data now valid_lft }

/-- The partial body `NetBoxClient::updatePrefix` PATCHes
(netbox_client.cc lines 192-229): status, description and custom fields. -/
def updatePrefixPayload (data : PdAssignmentData) (now valid_lft : Nat)
    (status : String) : NbPatch :=
  { status := some status
    description := some (descriptionOf data)
    custom_fields := some (customFieldsOf data now valid_lft) }

/-- The partial body `NetBoxClient::updateExpiredPrefix` PATCHes
(netbox_client.cc lines 231-254): only `status = "deprecated"`; the `data`
argument is accepted but never serialized. -/
def updateExpiredPrefixPayload (_data : PdAssignmentData) : NbPatch :=
  { status := some "deprecated"
    description := none
    custom_fields := none }

/-- The remote inventory: its records and the next id the server assigns. -/
structure NetBoxState where
  records : List NbRecord
  nextId : Nat
deriving DecidableEq

/-- The search key of the lookup GET: `<prefix>/<length>`
(netbox_client.cc line 128). -/
def searchKey (data : PdAssignmentData) : String :=
  data.pfx ++ "/" ++ decRepr data.prefix_length

/-- The records the remote search by prefix returns. -/
def nbLookup (st : NetBoxState) (key : String) : List NbRecord :=
  st.records.filter (fun r => r.pfx = key)

/-- The lookup response of a reachable, well-behaved server: the results
array with each record's id rendered in decimal, as `asString()` yields. -/
def lookupResponseOf (st : NetBoxState) (key : String) : LookupResponse :=
  .results ((nbLookup st key).map (fun r => decRepr r.id))

/-- The remote effect of a successful POST: a record with a fresh id. -/
def nbCreate (st : NetBoxState) (c : NbContent) : NetBoxState :=
  { records := st.records ++
      [{ id := st.nextId, pfx := c.pfx, status := c.status,
         description := c.description, custom_fields := c.custom_fields }]
    nextId := st.nextId + 1 }

/-- The remote effect of a PATCH on `/ipam/prefixes/<pid>/`. -/
def nbApplyPatch (st : NetBoxState) (pid : Nat) (p : NbPatch) : NetBoxState :=
  { st with records := st.records.map (fun r => if r.id = pid then applyPatch r p else r) }

/-- The write operations `sendNetBoxRequest` can issue. -/
inductive NbOp where
  | createOp (c : NbContent)
  | updateOp (pid : Nat) (p : NbPatch)
deriving DecidableEq

/-- `NetBoxClient::sendNetBoxRequest` (netbox_client.cc lines 257-276) with
the lookup outcome given explicitly: after the configuration check, look up
the prefix; a positive id routes to `updatePrefix(..., "active")`, anything
else to `createPrefix`.  Returns the remote state after the write and the
operations issued. -/
def sendNetBoxRequestWith (cfg : WebhookConfig) (data : PdAssignmentData)
    (valid_lft _preferred_lft now : Nat) (resp : LookupResponse)
    (st : NetBoxState) : NetBoxState × List NbOp :=
  if ¬ cfg.netbox_enabled ∨ cfg.netbox_url = "" ∨ cfg.netbox_token = "" then (st, [])
  else
    let existing_prefix_id := findPrefixId resp
    if existing_prefix_id > 0 then
      let p := updatePrefixPayload data now valid_lft "active"
      (nbApplyPatch st existing_prefix_id.toNat p, [.updateOp existing_prefix_id.toNat p])
    else
      let c := createPrefixPayload data now valid_lft
      (nbCreate st c, [.createOp c])

/-- `sendNetBoxRequest` against a reachable server: the lookup is
re-executed from the current remote state on every call (no local identifier
cache). -/
def sendNetBoxRequest (cfg : WebhookConfig) (data : PdAssignmentData)
    (valid_lft preferred_lft now : Nat) (st : NetBoxState) : NetBoxState × List NbOp :=
  sendNetBoxRequestWith cfg data valid_lft preferred_lft now
    (lookupResponseOf st (searchKey data)) st

/-! ## Decimal rendering and parsing round trip

`lookupResponseOf` renders record ids with `decRepr` and `findPrefixId`
parses them back with `safeParseInt`; the lemmas below establish the round
trip for ids in `int` range. -/

theorem decDigitChar_toNat (d : Nat) (h : d < 10) : (decDigitChar d).toNat = 48 + d := by
  interval_cases d <;> decide

theorem isDigitChar_decDigitChar (d : Nat) (h : d < 10) :
    isDigitChar (decDigitChar d) = true := by
  simp [isDigitChar, decDigitChar_toNat d h]
  omega

theorem decReprAux_all_digits :
    ∀ (fuel n : Nat) (acc : List Char), (∀ c ∈ acc, isDigitChar c = true) →
      ∀ c ∈ decReprAux fuel n acc, isDigitChar c = true := by
  intro fuel
  induction fuel with
  | zero => intro n acc hacc; simpa [decReprAux] using hacc
  | succ fuel ih =>
    intro n acc hacc c hc
    rw [decReprAux] at hc
    by_cases h : n < 10
    · rw [if_pos h] at hc
      rcases List.mem_cons.mp hc with h1 | h1
      · exact h1 ▸ isDigitChar_decDigitChar n h
      · exact hacc c h1
    · rw [if_neg h] at hc
      refine ih (n / 10) _ ?_ c hc
      intro c' hc'
      rcases List.mem_cons.mp hc' with h1 | h1
      · exact h1 ▸ isDigitChar_decDigitChar (n % 10) (Nat.mod_lt n (by norm_num))
      · exact hacc c' h1

theorem decReprAux_cons :
    ∀ (fuel n : Nat) (acc : List Char), n ≤ fuel →
      ∃ c cs, decReprAux (fuel + 1) n acc = c :: cs ∧ isDigitChar c = true := by
  intro fuel
  induction fuel with
  | zero =>
    intro n acc hn
    have h0 : n = 0 := Nat.le_zero.mp hn
    subst h0
    exact ⟨decDigitChar 0, acc, by simp [decReprAux], isDigitChar_decDigitChar 0 (by norm_num)⟩
  | succ fuel ih =>
    intro n acc hn
    rw [decReprAux]
    by_cases h : n < 10
    · exact ⟨decDigitChar n, acc, by rw [if_pos h], isDigitChar_decDigitChar n h⟩
    · rw [if_neg h]
      have hdiv : n / 10 < n := Nat.div_lt_self (by omega) (by norm_num)
      exact ih (n / 10) _ (by omega)

theorem decReprAux_foldl :
    ∀ (fuel n : Nat), n ≤ fuel → ∀ (acc : List Char) (v : Nat),
      ∃ k, 0 < k ∧
        (decReprAux (fuel + 1) n acc).foldl (fun a c => a * 10 + (c.toNat - 48)) v
          = acc.foldl (fun a c => a * 10 + (c.toNat - 48)) (v * k + n) := by
  intro fuel
  induction fuel with
  | zero =>
    intro n hn acc v
    have h0 : n = 0 := Nat.le_zero.mp hn
    subst h0
    refine ⟨10, by norm_num, ?_⟩
    simp [decReprAux, List.foldl_cons, decDigitChar_toNat 0 (by norm_num)]
  | succ fuel ih =>
    intro n hn acc v
    rw [decReprAux]
    by_cases h : n < 10
    · refine ⟨10, by norm_num, ?_⟩
      rw [if_pos h]
      simp [List.foldl_cons, decDigitChar_toNat n h]
    · rw [if_neg h]
      have hdiv : n / 10 < n := Nat.div_lt_self (by omega) (by norm_num)
      obtain ⟨k, hk, hfold⟩ := ih (n / 10) (by omega) (decDigitChar (n % 10) :: acc) v
      refine ⟨k * 10, by positivity, ?_⟩
      rw [hfold, List.foldl_cons, decDigitChar_toNat (n % 10) (Nat.mod_lt n (by norm_num))]
      congr 1
      have hsub : 48 + n % 10 - 48 = n % 10 := by omega
      rw [hsub, show v * (k * 10) = v * k * 10 from by ring]
      omega

theorem safeParseInt_decRepr (n : Nat) (h : n ≤ 2147483647) :
    safeParseInt (decRepr n) (-1) = (n : Int) := by
  obtain ⟨c, cs, hlist, hdig⟩ := decReprAux_cons n n [] (le_refl n)
  have h48 : 48 ≤ c.toNat ∧ c.toNat ≤ 57 := by
    simpa [isDigitChar] using hdig
  have hsp : c ≠ ' ' := by intro he; subst he; revert h48; decide
  have hminus : c ≠ '-' := by intro he; subst he; revert h48; decide
  have hplus : c ≠ '+' := by intro he; subst he; revert h48; decide
  have hd : (decRepr n).data = c :: cs := by
    have h0 : (decRepr n).data = decReprAux (n + 1) n [] := rfl
    rw [h0, hlist]
  have hdw : (c :: cs).dropWhile (fun ch => ch = ' ') = c :: cs := by
    simp [List.dropWhile_cons, hsp]
  have hsplit : splitSign (c :: cs) = (false, c :: cs) := by
    simp [splitSign, hminus, hplus]
  have halldigits : (c :: cs).all isDigitChar = true := by
    rw [List.all_eq_true]
    intro x hx
    exact decReprAux_all_digits (n + 1) n [] (by simp) x (hlist ▸ hx)
  obtain ⟨k, hk, hfold⟩ := decReprAux_foldl n n (le_refl n) [] 0
  rw [hlist] at hfold
  simp only [List.foldl_nil, Nat.zero_mul, Nat.zero_add] at hfold
  simp only [safeParseInt, hd, hdw, hsplit]
  simp [halldigits, hfold, h]

/-! ## Frame lemma for PATCH by id -/

theorem map_patch_frame (l : List NbRecord) (pid : Nat) (p : NbPatch)
    (h : ∀ r ∈ l, r.id ≠ pid) :
    l.map (fun r => if r.id = pid then applyPatch r p else r) = l := by
  induction l with
  | nil => rfl
  | cons a t ih =>
    simp only [List.map_cons, if_neg (h a (List.mem_cons_self a t))]
    rw [ih (fun r hr => h r (List.mem_cons_of_mem a hr))]

/-! ## Claim theorems -/

/-- Claim C1: reconciliation is idempotent.  With NetBox configured, a
reachable remote starting with no record for the prefix, and fresh ids in
`int` range, running `sendNetBoxRequest` twice in sequence with no
intervening remote-state change issues exactly one create followed by one
update (never two creates), because `findPrefixId` is re-executed from the
remote state at the start of each call and the positive id found by the
second run routes it to `updatePrefix`; the remote state after the second
run equals the state after the first. -/
theorem C1_reconcile_idempotent
    (cfg : WebhookConfig) (data : PdAssignmentData) (valid_lft preferred_lft now : Nat)
    (st : NetBoxState)
    (hen : cfg.netbox_enabled = true) (hurl : cfg.netbox_url ≠ "")
    (htok : cfg.netbox_token ≠ "")
    (habsent : nbLookup st (searchKey data) = [])
    (hpos : 1 ≤ st.nextId) (hbound : st.nextId ≤ 2147483647)
    (hfresh : ∀ r ∈ st.records, r.id < st.nextId) :
    (sendNetBoxRequest cfg data valid_lft preferred_lft now st).2
      = [NbOp.createOp (createPrefixPayload data now valid_lft)] ∧
    (sendNetBoxRequest cfg data valid_lft preferred_lft now
        (sendNetBoxRequest cfg data valid_lft preferred_lft now st).1).2
      = [NbOp.updateOp st.nextId (updatePrefixPayload data now valid_lft "active")] ∧
    (sendNetBoxRequest cfg data valid_lft preferred_lft now
        (sendNetBoxRequest cfg data valid_lft preferred_lft now st).1).1
      = (sendNetBoxRequest cfg data valid_lft preferred_lft now st).1 := by
  have hcfg : ¬ (¬ cfg.netbox_enabled = true ∨ cfg.netbox_url = "" ∨ cfg.netbox_token = "") := by
    simp [hen, hurl, htok]
  have h1 : sendNetBoxRequest cfg data valid_lft preferred_lft now st
      = (nbCreate st (createPrefixPayload data now valid_lft),
         [NbOp.createOp (createPrefixPayload data now valid_lft)]) := by
    unfold sendNetBoxRequest sendNetBoxRequestWith
    rw [if_neg hcfg]
    have hresp : lookupResponseOf st (searchKey data) = LookupResponse.results [] := by
      unfold lookupResponseOf
      rw [habsent]
      rfl
    rw [hresp]
    simp [findPrefixId]
  have hlook : nbLookup (nbCreate st (createPrefixPayload data now valid_lft)) (searchKey data)
      = [{ id := st.nextId,
           pfx := (createPrefixPayload data now valid_lft).pfx,
           status := (createPrefixPayload data now valid_lft).status,
           description := (createPrefixPayload data now valid_lft).description,
           custom_fields := (createPrefixPayload data now valid_lft).custom_fields }] := by
    unfold nbLookup nbCreate
    rw [List.filter_append]
    unfold nbLookup at habsent
    rw [habsent]
    simp [createPrefixPayload, searchKey]
  have h3 : nbApplyPatch (nbCreate st (createPrefixPayload data now valid_lft)) st.nextId
        (updatePrefixPayload data now valid_lft "active")
      = nbCreate st (createPrefixPayload data now valid_lft) := by
    unfold nbApplyPatch nbCreate
    simp only [NetBoxState.mk.injEq, and_true]
    rw [List.map_append,
      map_patch_frame st.records st.nextId _ (fun r hr => Nat.ne_of_lt (hfresh r hr))]
    simp [applyPatch, updatePrefixPayload, createPrefixPayload]
  have h2 : sendNetBoxRequest cfg data valid_lft preferred_lft now
        (nbCreate st (createPrefixPayload data now valid_lft))
      = (nbCreate st (createPrefixPayload data now valid_lft),
         [NbOp.updateOp st.nextId (updatePrefixPayload data now valid_lft "active")]) := by
    unfold sendNetBoxRequest sendNetBoxRequestWith
    rw [if_neg hcfg]
    have hresp : lookupResponseOf (nbCreate st (createPrefixPayload data now valid_lft))
        (searchKey data) = LookupResponse.results [decRepr st.nextId] := by
      unfold lookupResponseOf
      rw [hlook]
      rfl
    rw [hresp]
    have hfind : findPrefixId (LookupResponse.results [decRepr st.nextId]) = (st.nextId : Int) := by
      unfold findPrefixId
      exact safeParseInt_decRepr st.nextId hbound
    rw [hfind]
    rw [if_pos (by exact_mod_cast Nat.lt_of_lt_of_le Nat.zero_lt_one hpos)]
    rw [show ((st.nextId : Int)).toNat = st.nextId from by simp]
    simp only [h3]
  refine ⟨by rw [h1], ?_, ?_⟩
  · rw [h1]
    simpa using congrArg Prod.snd h2
  · rw [h1]
    simpa using congrArg Prod.fst h2

/-- Claim C1 witness: concrete double run against an initially empty remote. -/
theorem C1_reconcile_idempotent_witness :
    (sendNetBoxRequest ⟨"", 2000, false, false, "http://nb", "tok", true⟩
        ⟨"000300010200000001", "2001:db8:100::", 56, 7, "fe80::1", "2001:db8::1", ""⟩
        600 300 1000 ⟨[], 1⟩).2
      = [NbOp.createOp (createPrefixPayload
          ⟨"000300010200000001", "2001:db8:100::", 56, 7, "fe80::1", "2001:db8::1", ""⟩ 1000 600)] ∧
    (sendNetBoxRequest ⟨"", 2000, false, false, "http://nb", "tok", true⟩
        ⟨"000300010200000001", "2001:db8:100::", 56, 7, "fe80::1", "2001:db8::1", ""⟩
        600 300 1000
        (sendNetBoxRequest ⟨"", 2000, false, false, "http://nb", "tok", true⟩
          ⟨"000300010200000001", "2001:db8:100::", 56, 7, "fe80::1", "2001:db8::1", ""⟩
          600 300 1000 ⟨[], 1⟩).1).2
      = [NbOp.updateOp 1 (updatePrefixPayload
          ⟨"000300010200000001", "2001:db8:100::", 56, 7, "fe80::1", "2001:db8::1", ""⟩ 1000 600 "active")] ∧
    (sendNetBoxRequest ⟨"", 2000, false, false, "http://nb", "tok", true⟩
        ⟨"000300010200000001", "2001:db8:100::", 56, 7, "fe80::1", "2001:db8::1", ""⟩
        600 300 1000
        (sendNetBoxRequest ⟨"", 2000, false, false, "http://nb", "tok", true⟩
          ⟨"000300010200000001", "2001:db8:100::", 56, 7, "fe80::1", "2001:db8::1", ""⟩
          600 300 1000 ⟨[], 1⟩).1).1
      = (sendNetBoxRequest ⟨"", 2000, false, false, "http://nb", "tok", true⟩
          ⟨"000300010200000001", "2001:db8:100::", 56, 7, "fe80::1", "2001:db8::1", ""⟩
          600 300 1000 ⟨[], 1⟩).1 :=
  C1_reconcile_idempotent
    ⟨"", 2000, false, false, "http://nb", "tok", true⟩
    ⟨"000300010200000001", "2001:db8:100::", 56, 7, "fe80::1", "2001:db8::1", ""⟩
    600 300 1000 ⟨[], 1⟩
    (by decide) (by decide) (by decide) (by decide) (by decide) (by decide) (by decide)

/-- Claim C8: for an Expired event's write on a found record,
`updateExpiredPrefix` PATCHes a body holding only `status = "deprecated"`,
so the remote changes exactly the status of the addressed record and leaves
every other field (description, custom fields, and with them the expiry
timestamp `dhcpv6_leasetime`) and every other record unchanged. -/
theorem C8_expired_update_status_only (st : NetBoxState) (pid : Nat) (data : PdAssignmentData) :
    (nbApplyPatch st pid (updateExpiredPrefixPayload data)).records
      = st.records.map (fun r => if r.id = pid then { r with status := "deprecated" } else r) ∧
    ∀ r : NbRecord,
      (applyPatch r (updateExpiredPrefixPayload data)).status = "deprecated" ∧
      (applyPatch r (updateExpiredPrefixPayload data)).description = r.description ∧
      (applyPatch r (updateExpiredPrefixPayload data)).custom_fields = r.custom_fields ∧
      (applyPatch r (updateExpiredPrefixPayload data)).id = r.id ∧
      (applyPatch r (updateExpiredPrefixPayload data)).pfx = r.pfx := by
  constructor
  · simp [nbApplyPatch, applyPatch, updateExpiredPrefixPayload]
  · intro r
    simp [applyPatch, updateExpiredPrefixPayload]

/-- Claim C9: both host-visible callouts always return 0 ("no objection"),
whatever the configuration, the arguments (including missing ones) and the
remote outcome: every branch of `leases6_committed` and `lease6_renew`
returns 0, and neither inspects any remote result. -/
theorem C9_callouts_return_zero :
    (∀ (cfg : WebhookConfig) (args : CommittedArgs), (leases6_committed cfg args).1 = 0) ∧
    (∀ (cfg : WebhookConfig) (args : RenewArgs), (lease6_renew cfg args).1 = 0) := by
  constructor
  · intro cfg args
    obtain ⟨q, r, ls, d⟩ := args
    unfold leases6_committed
    split
    · rfl
    · cases q <;> cases r <;> cases ls <;> (simp only []; try rfl)
      split <;> rfl
  · intro cfg args
    obtain ⟨l, q⟩ := args
    unfold lease6_renew
    split
    · rfl
    · cases l <;> cases q <;> (simp only []; try rfl)
      split <;> rfl

/-- Claim C10: a failed lookup is indistinguishable from not-found at the
decision point: `findPrefixId` returns -1 for an empty (transport-failed)
response, for a body without a parseable "results" array, and for a
legitimate empty results array alike, and `sendNetBoxRequest` with a -1
lookup outcome issues a create. -/
theorem C10_lookup_failure_creates
    (cfg : WebhookConfig) (data : PdAssignmentData) (valid_lft preferred_lft now : Nat)
    (st : NetBoxState)
    (hen : cfg.netbox_enabled = true) (hurl : cfg.netbox_url ≠ "")
    (htok : cfg.netbox_token ≠ "") :
    findPrefixId LookupResponse.emptyResponse = -1 ∧
    findPrefixId LookupResponse.malformed = -1 ∧
    findPrefixId (LookupResponse.results []) = -1 ∧
    ∀ resp : LookupResponse, findPrefixId resp = -1 →
      (sendNetBoxRequestWith cfg data valid_lft preferred_lft now resp st).2
        = [NbOp.createOp (createPrefixPayload data now valid_lft)] := by
  refine ⟨rfl, rfl, rfl, ?_⟩
  intro resp hresp
  unfold sendNetBoxRequestWith
  rw [if_neg (by simp [hen, hurl, htok])]
  simp [hresp]

/-- Claim C10 witness: a transport failure at a concrete call creates. -/
theorem C10_lookup_failure_creates_witness :
    (sendNetBoxRequestWith ⟨"", 2000, false, false, "http://nb", "tok", true⟩
        ⟨"00", "2001:db8::", 56, 1, "", "", ""⟩ 10 5 99
        LookupResponse.emptyResponse ⟨[], 1⟩).2
      = [NbOp.createOp (createPrefixPayload ⟨"00", "2001:db8::", 56, 1, "", "", ""⟩ 99 10)] :=
  (C10_lookup_failure_creates ⟨"", 2000, false, false, "http://nb", "tok", true⟩
      ⟨"00", "2001:db8::", 56, 1, "", "", ""⟩ 10 5 99 ⟨[], 1⟩
      (by decide) (by decide) (by decide)).2.2.2
    LookupResponse.emptyResponse (by decide)

/-! ## Non-emptiness of rendered addresses -/

theorem hexNatAux_length (fuel : Nat) :
    ∀ (n : Nat) (acc : List Char), acc.length ≤ (hexNatAux fuel n acc).length := by
  induction fuel with
  | zero => intro n acc; simp [hexNatAux]
  | succ fuel ih =>
    intro n acc
    rw [hexNatAux]
    split
    · exact le_refl _
    · exact le_trans (by simp) (ih (n / 16) (hexDigitChar (n % 16) :: acc))

theorem hexNatAux_pos (fuel n : Nat) (acc : List Char) (hn : ¬ n = 0) :
    1 ≤ (hexNatAux (fuel + 1) n acc).length := by
  have h := hexNatAux_length fuel (n / 16) (hexDigitChar (n % 16) :: acc)
  rw [hexNatAux, if_neg hn]
  calc 1 ≤ (hexDigitChar (n % 16) :: acc).length := by simp
    _ ≤ _ := h

theorem hexNoPad_ne_empty (n : Nat) : hexNoPad n ≠ "" := by
  unfold hexNoPad
  split
  · decide
  · rename_i hn
    intro hcontra
    have hdata : hexNatAux n n [] = [] := congrArg String.data hcontra
    obtain ⟨m, hm⟩ : ∃ m, n = m + 1 := ⟨n - 1, by omega⟩
    have h1 := hexNatAux_pos m (m + 1) [] (by omega)
    rw [← hm] at h1
    rw [hdata] at h1
    simp at h1

theorem intercalate_go_length (as : List String) :
    ∀ (acc s : String), acc.length ≤ (String.intercalate.go acc s as).length := by
  induction as with
  | nil => intro acc s; simp [String.intercalate.go]
  | cons b bs ih =>
    intro acc s
    rw [String.intercalate.go]
    refine le_trans ?_ (ih (acc ++ s ++ b) s)
    simp only [String.length_append]
    omega

theorem intercalate_hex_len_pos (g : Nat) (t : List Nat) :
    1 ≤ (String.intercalate ":" ((g :: t).map hexNoPad)).length := by
  simp only [List.map_cons, String.intercalate]
  refine le_trans ?_ (intercalate_go_length (t.map hexNoPad) (hexNoPad g) ":")
  have hne := hexNoPad_ne_empty g
  have hlen : (hexNoPad g).length ≠ 0 := by
    intro h0
    apply hne
    cases hstr : hexNoPad g with
    | mk l =>
      rw [hstr] at h0
      have hl : l = [] := List.length_eq_zero.mp h0
      rw [hl]
  omega

theorem ipv6Groups_ne_nil (bs : List Nat) (h : bs ≠ []) : ipv6Groups bs ≠ [] := by
  match bs with
  | [] => exact absurd rfl h
  | [a] => simp [ipv6Groups]
  | a :: b :: t => simp [ipv6Groups]

theorem compressIPv6_ne_empty (bs : List Nat) (h : bs ≠ []) : compressIPv6 bs ≠ "" := by
  intro hcontra
  have hlen : (compressIPv6 bs).length = 0 := by rw [hcontra]; rfl
  rw [compressIPv6] at hlen
  split at hlen
  · cases hgs : ipv6Groups bs with
    | nil => exact ipv6Groups_ne_nil bs h hgs
    | cons g t =>
      rw [hgs] at hlen
      have := intercalate_hex_len_pos g t
      omega
  · split at hlen
    · simp only [String.length_append] at hlen
      have h2 : ("::" : String).length = 2 := rfl
      omega
    · simp only [String.length_append] at hlen
      have h2 : ("::" : String).length = 2 := rfl
      omega

theorem IOAddress_toText_ne_empty (a : IOAddress) (h : ¬ a.isV6Zero = true) :
    a.toText ≠ "" := by
  apply compressIPv6_ne_empty
  intro hb
  exact h (by simp [IOAddress.isV6Zero, hb])

/-- Claim C2 counterexample: a query with no relay information, no
RELAY_MSG option and no client-id option — so neither relay hop 0's peer
address nor the DUID yields anything — but whose transport remote address is
the link-local "fe80::9".  The derivation returns exactly that transport
remote address, not the empty string. -/
theorem C2_counterexample :
    extractCpeLinkLocal
        { msg_type := 3, relay_info := [], options := [],
          remote_addr := ⟨[254, 128, 0, 0, 0, 0, 0, 0, 0, 0, 0, 0, 0, 0, 0, 9]⟩,
          local_addr := ⟨[0, 0, 0, 0, 0, 0, 0, 0, 0, 0, 0, 0, 0, 0, 0, 0]⟩ }
      = IOAddress.toText ⟨[254, 128, 0, 0, 0, 0, 0, 0, 0, 0, 0, 0, 0, 0, 0, 9]⟩ ∧
    IOAddress.toText ⟨[254, 128, 0, 0, 0, 0, 0, 0, 0, 0, 0, 0, 0, 0, 0, 9]⟩ = "fe80::9" ∧
    ("fe80::9" : String) ≠ "" := by
  refine ⟨by decide, by decide, by decide⟩

/-- Claim C2 amended: when neither source is present (no relay info, no
RELAY_MSG option, no client-id option), `extractCpeLinkLocal` is not empty:
for relay message types with a non-zero remote it returns the transport
remote address unconditionally, and otherwise it returns the transport
remote address whenever that is link-local, falling back to the string
"unknown" — never to "". -/
theorem C2_remote_fallback (q : Pkt6)
    (hri : q.relay_info = [])
    (hrm : q.getOption D6O_RELAY_MSG = none)
    (hcid : q.getOption D6O_CLIENTID = none) :
    extractCpeLinkLocal q =
      if (q.msg_type = DHCPV6_RELAY_FORW ∨ q.msg_type = DHCPV6_RELAY_REPL) ∧
          ¬ q.remote_addr.isV6Zero = true then
        q.remote_addr.toText
      else if ¬ q.remote_addr.isV6Zero = true ∧
          strStartsWith q.remote_addr.toText "fe80::" = true then
        q.remote_addr.toText
      else "unknown" := by
  have hduid : duidLinkLocal q = none := by
    unfold duidLinkLocal
    rw [hcid]
  have hafter : ∀ s, cpeAfterRelayBlocks q s = cpeAfterDuid q s := by
    intro s
    unfold cpeAfterRelayBlocks
    rw [hduid]
  simp only [extractCpeLinkLocal, hri, hrm]
  by_cases hmsg : q.msg_type = DHCPV6_RELAY_FORW ∨ q.msg_type = DHCPV6_RELAY_REPL
  · rw [if_pos hmsg]
    by_cases hz : q.remote_addr.isV6Zero = true
    · rw [if_neg (by simp [hz])]
      rw [hafter]
      simp [cpeAfterDuid, hz]
    · rw [if_pos hz]
      by_cases hsw : strStartsWith q.remote_addr.toText "fe80::" = true
      · rw [if_pos hsw, if_pos ⟨hmsg, hz⟩]
      · rw [if_neg hsw, hafter]
        unfold cpeAfterDuid
        rw [if_pos (IOAddress_toText_ne_empty q.remote_addr hz), if_pos ⟨hmsg, hz⟩]
  · rw [if_neg hmsg, hafter]
    rw [if_neg (show ¬ ((q.msg_type = DHCPV6_RELAY_FORW ∨ q.msg_type = DHCPV6_RELAY_REPL) ∧
        ¬ q.remote_addr.isV6Zero = true) from fun h => hmsg h.1)]
    unfold cpeAfterDuid
    rw [if_neg (show ¬ (("" : String) ≠ "") from by simp)]

/-- Claim C2 witness: the amended behavior at the concrete query of the
counterexample — with neither source present, the link-local transport
remote address is returned. -/
theorem C2_remote_fallback_witness :
    extractCpeLinkLocal
        { msg_type := 3, relay_info := [], options := [],
          remote_addr := ⟨[254, 128, 0, 0, 0, 0, 0, 0, 0, 0, 0, 0, 0, 0, 0, 9]⟩,
          local_addr := ⟨[0, 0, 0, 0, 0, 0, 0, 0, 0, 0, 0, 0, 0, 0, 0, 0]⟩ }
      = IOAddress.toText ⟨[254, 128, 0, 0, 0, 0, 0, 0, 0, 0, 0, 0, 0, 0, 0, 9]⟩ :=
  C2_remote_fallback
    { msg_type := 3, relay_info := [], options := [],
      remote_addr := ⟨[254, 128, 0, 0, 0, 0, 0, 0, 0, 0, 0, 0, 0, 0, 0, 9]⟩,
      local_addr := ⟨[0, 0, 0, 0, 0, 0, 0, 0, 0, 0, 0, 0, 0, 0, 0, 0]⟩ }
    rfl rfl rfl

/-- Claim C3 counterexample: on a query carrying no relay information, no
options and zero transport addresses — so the data for all three derived
fields is absent — each extractor returns the sentinel string "unknown",
not the empty string. -/
theorem C3_counterexample :
    (extractCpeLinkLocal
        { msg_type := 3, relay_info := [], options := [],
          remote_addr := ⟨[0, 0, 0, 0, 0, 0, 0, 0, 0, 0, 0, 0, 0, 0, 0, 0]⟩,
          local_addr := ⟨[0, 0, 0, 0, 0, 0, 0, 0, 0, 0, 0, 0, 0, 0, 0, 0]⟩ } = "unknown" ∧
     extractRouterIp
        { msg_type := 3, relay_info := [], options := [],
          remote_addr := ⟨[0, 0, 0, 0, 0, 0, 0, 0, 0, 0, 0, 0, 0, 0, 0, 0]⟩,
          local_addr := ⟨[0, 0, 0, 0, 0, 0, 0, 0, 0, 0, 0, 0, 0, 0, 0, 0]⟩ } = "unknown" ∧
     extractRouterLinkAddr
        { msg_type := 3, relay_info := [], options := [],
          remote_addr := ⟨[0, 0, 0, 0, 0, 0, 0, 0, 0, 0, 0, 0, 0, 0, 0, 0]⟩,
          local_addr := ⟨[0, 0, 0, 0, 0, 0, 0, 0, 0, 0, 0, 0, 0, 0, 0, 0]⟩ } = "unknown") ∧
    ("unknown" : String) ≠ "" := by
  refine ⟨⟨by decide, by decide, by decide⟩, by decide⟩

/-- Claim C3 amended: the derivation is total (the extractors are functions
defined on every query), but absent data yields the sentinel string
"unknown", not the empty string: on a query with no relay information, no
options and zero addresses all three extractors return "unknown". -/
theorem C3_absent_data_unknown (q : Pkt6)
    (hri : q.relay_info = []) (hopt : q.options = [])
    (hrz : q.remote_addr.isV6Zero = true) (hlz : q.local_addr.isV6Zero = true) :
    extractCpeLinkLocal q = "unknown" ∧ extractRouterIp q = "unknown" ∧
    extractRouterLinkAddr q = "unknown" ∧ ("unknown" : String) ≠ "" := by
  have hrm : q.getOption D6O_RELAY_MSG = none := by simp [Pkt6.getOption, hopt]
  have hcid : q.getOption D6O_CLIENTID = none := by simp [Pkt6.getOption, hopt]
  have hduid : duidLinkLocal q = none := by
    unfold duidLinkLocal
    rw [hcid]
  have hafter : cpeAfterRelayBlocks q "" = "unknown" := by
    unfold cpeAfterRelayBlocks
    rw [hduid]
    unfold cpeAfterDuid
    rw [if_neg (show ¬ (("" : String) ≠ "") from by simp)]
    rw [if_neg (by simp [hrz])]
  refine ⟨?_, ?_, ?_, by simp⟩
  · simp only [extractCpeLinkLocal, hri, hrm]
    by_cases hmsg : q.msg_type = DHCPV6_RELAY_FORW ∨ q.msg_type = DHCPV6_RELAY_REPL
    · rw [if_pos hmsg, if_neg (by simp [hrz]), hafter]
    · rw [if_neg hmsg, hafter]
  · simp only [extractRouterIp, hrm]
    unfold routerIpFallback
    rw [if_neg (by simp [hrz])]
  · simp only [extractRouterLinkAddr, hri]
    unfold routerLinkAddrFallback
    rw [if_neg (by simp [hlz])]

/-- Claim C3 witness: the amended behavior at the concrete all-absent
query. -/
theorem C3_absent_data_unknown_witness :
    extractCpeLinkLocal
        { msg_type := 3, relay_info := [], options := [],
          remote_addr := ⟨[0, 0, 0, 0, 0, 0, 0, 0, 0, 0, 0, 0, 0, 0, 0, 0]⟩,
          local_addr := ⟨[0, 0, 0, 0, 0, 0, 0, 0, 0, 0, 0, 0, 0, 0, 0, 0]⟩ } = "unknown" ∧
    extractRouterIp
        { msg_type := 3, relay_info := [], options := [],
          remote_addr := ⟨[0, 0, 0, 0, 0, 0, 0, 0, 0, 0, 0, 0, 0, 0, 0, 0]⟩,
          local_addr := ⟨[0, 0, 0, 0, 0, 0, 0, 0, 0, 0, 0, 0, 0, 0, 0, 0]⟩ } = "unknown" ∧
    extractRouterLinkAddr
        { msg_type := 3, relay_info := [], options := [],
          remote_addr := ⟨[0, 0, 0, 0, 0, 0, 0, 0, 0, 0, 0, 0, 0, 0, 0, 0]⟩,
          local_addr := ⟨[0, 0, 0, 0, 0, 0, 0, 0, 0, 0, 0, 0, 0, 0, 0, 0]⟩ } = "unknown" ∧
    ("unknown" : String) ≠ "" :=
  C3_absent_data_unknown
    { msg_type := 3, relay_info := [], options := [],
      remote_addr := ⟨[0, 0, 0, 0, 0, 0, 0, 0, 0, 0, 0, 0, 0, 0, 0, 0]⟩,
      local_addr := ⟨[0, 0, 0, 0, 0, 0, 0, 0, 0, 0, 0, 0, 0, 0, 0, 0]⟩ }
    rfl rfl (by decide) (by decide)

/-- Claim C4 counterexample: for the DUID-LL Ethernet client identifier
embedding the MAC 02:00:00:00:00:01, the derived address is the fixed-width
text "fe80::0000:00ff:fe00:0001" — the same modified-EUI-64 bits, but not
the compressed text "fe80::0:0ff:fe00:1" the claim requires. -/
theorem C4_counterexample :
    extractCpeLinkLocal
        { msg_type := 3, relay_info := [],
          options := [(1, [0, 3, 0, 1, 2, 0, 0, 0, 0, 1])],
          remote_addr := ⟨[0, 0, 0, 0, 0, 0, 0, 0, 0, 0, 0, 0, 0, 0, 0, 0]⟩,
          local_addr := ⟨[0, 0, 0, 0, 0, 0, 0, 0, 0, 0, 0, 0, 0, 0, 0, 0]⟩ }
      = "fe80::0000:00ff:fe00:0001" ∧
    ("fe80::0000:00ff:fe00:0001" : String) ≠ "fe80::0:0ff:fe00:1" := by
  refine ⟨by decide, by decide⟩

/-- Claim C4 amended: for a DUID-LL (type 3) or DUID-LLT (type 1) client
identifier with Ethernet hardware type, when no relay source preempts it,
the derived CPE link-local address is "fe80::" followed by the
modified-EUI-64 groups of the embedded MAC (universal/local bit flipped,
ff/fe inserted) printed as fixed-width two-digit bytes — zero-padded, not
compressed. -/
theorem C4_duid_eui64_text (q : Pkt6) (m0 m1 m2 m3 m4 m5 t0 t1 t2 t3 : Nat)
    (hri : q.relay_info = []) (hrm : q.getOption D6O_RELAY_MSG = none)
    (hmsg : ¬ q.msg_type = DHCPV6_RELAY_FORW ∧ ¬ q.msg_type = DHCPV6_RELAY_REPL) :
    (q.getOption D6O_CLIENTID = some [0, 3, 0, 1, m0, m1, m2, m3, m4, m5] →
      extractCpeLinkLocal q = "fe80::" ++ hexSetw2 (m0 ^^^ 2) ++ hexSetw2 m1 ++
        ":" ++ hexSetw2 m2 ++ "ff" ++ ":fe" ++ hexSetw2 m3 ++
        ":" ++ hexSetw2 m4 ++ hexSetw2 m5) ∧
    (q.getOption D6O_CLIENTID = some [0, 1, 0, 1, t0, t1, t2, t3, m0, m1, m2, m3, m4, m5] →
      extractCpeLinkLocal q = "fe80::" ++ hexSetw2 (m0 ^^^ 2) ++ hexSetw2 m1 ++
        ":" ++ hexSetw2 m2 ++ "ff" ++ ":fe" ++ hexSetw2 m3 ++
        ":" ++ hexSetw2 m4 ++ hexSetw2 m5) := by
  have hpath : extractCpeLinkLocal q = cpeAfterRelayBlocks q "" := by
    simp only [extractCpeLinkLocal, hri, hrm]
    rw [if_neg (not_or.mpr hmsg)]
  constructor
  · intro hcid
    have hduid : duidLinkLocal q
        = some ("fe80::" ++ hexSetw2 (m0 ^^^ 2) ++ hexSetw2 m1 ++
            ":" ++ hexSetw2 m2 ++ "ff" ++ ":fe" ++ hexSetw2 m3 ++
            ":" ++ hexSetw2 m4 ++ hexSetw2 m5) := by
      unfold duidLinkLocal
      rw [hcid]
      norm_num [List.getD]
    rw [hpath]
    unfold cpeAfterRelayBlocks
    rw [hduid]
    simp
  · intro hcid
    have hduid : duidLinkLocal q
        = some ("fe80::" ++ hexSetw2 (m0 ^^^ 2) ++ hexSetw2 m1 ++
            ":" ++ hexSetw2 m2 ++ "ff" ++ ":fe" ++ hexSetw2 m3 ++
            ":" ++ hexSetw2 m4 ++ hexSetw2 m5) := by
      unfold duidLinkLocal
      rw [hcid]
      norm_num [List.getD]
    rw [hpath]
    unfold cpeAfterRelayBlocks
    rw [hduid]
    simp

/-- Claim C4 witness: the amended behavior at the concrete DUID-LL query
with MAC 02:00:00:00:00:01. -/
theorem C4_duid_eui64_text_witness :
    extractCpeLinkLocal
        { msg_type := 3, relay_info := [],
          options := [(1, [0, 3, 0, 1, 2, 0, 0, 0, 0, 1])],
          remote_addr := ⟨[0, 0, 0, 0, 0, 0, 0, 0, 0, 0, 0, 0, 0, 0, 0, 0]⟩,
          local_addr := ⟨[0, 0, 0, 0, 0, 0, 0, 0, 0, 0, 0, 0, 0, 0, 0, 0]⟩ }
      = "fe80::" ++ hexSetw2 (2 ^^^ 2) ++ hexSetw2 0 ++ ":" ++ hexSetw2 0 ++ "ff" ++
        ":fe" ++ hexSetw2 0 ++ ":" ++ hexSetw2 0 ++ hexSetw2 1 :=
  (C4_duid_eui64_text
    { msg_type := 3, relay_info := [],
      options := [(1, [0, 3, 0, 1, 2, 0, 0, 0, 0, 1])],
      remote_addr := ⟨[0, 0, 0, 0, 0, 0, 0, 0, 0, 0, 0, 0, 0, 0, 0, 0]⟩,
      local_addr := ⟨[0, 0, 0, 0, 0, 0, 0, 0, 0, 0, 0, 0, 0, 0, 0, 0]⟩ }
    2 0 0 0 0 1 0 0 0 0 rfl rfl (by decide)).1 rfl

/-- Helper for C5: with the webhook sink configured, `notifyPdAssigned`
emits at least one effect exactly when the batch holds a PD lease. -/
theorem notifyPdAssigned_ne_nil (cfg : WebhookConfig) (q r : Pkt6) (ls : List Lease6)
    (hen : cfg.enabled = true) (hurl : cfg.url ≠ "") :
    (notifyPdAssigned cfg q r ls ≠ [] ↔
      ls.filter (fun l => l.type_ = LeaseType.TYPE_PD) ≠ []) := by
  unfold notifyPdAssigned
  cases ls with
  | nil => simp
  | cons a t =>
    cases hpd : (a :: t).filter (fun l => l.type_ = LeaseType.TYPE_PD) with
    | nil => simp [hpd]
    | cons b bs => simp [hpd, hen, hurl]

/-- Claim C5 counterexample: a RENEW query reaching `leases6_committed`
with the hook fully enabled and a PD lease in the batch produces zero
effects — the committed handler does not fire for RENEW, contrary to the
claim that it fires exactly for REQUEST, RENEW, or SOLICIT+rapid-commit. -/
theorem C5_counterexample :
    (leases6_committed
        ⟨"http://hook", 2000, true, false, "http://nb", "tok", true⟩
        ⟨some ⟨5, [], [], ⟨[0, 0, 0, 0, 0, 0, 0, 0, 0, 0, 0, 0, 0, 0, 0, 0]⟩,
              ⟨[0, 0, 0, 0, 0, 0, 0, 0, 0, 0, 0, 0, 0, 0, 0, 0]⟩⟩,
         some ⟨7, [], [], ⟨[0, 0, 0, 0, 0, 0, 0, 0, 0, 0, 0, 0, 0, 0, 0, 0]⟩,
              ⟨[0, 0, 0, 0, 0, 0, 0, 0, 0, 0, 0, 0, 0, 0, 0, 0]⟩⟩,
         some [⟨LeaseType.TYPE_PD, "2001:db8:100::", 56, 7, 1, 300, 600⟩],
         some []⟩).2 = [] := by
  decide

/-- Claim C5 amended: with valid arguments and the webhook sink configured,
`leases6_committed` produces effects exactly when the query is a REQUEST or
a SOLICIT carrying a rapid-commit option and the batch holds a PD lease;
in particular a RENEW query always produces zero effects at this handler
(renewals are handled by the separate `lease6_renew` callout). -/
theorem C5_commit_trigger_filter (cfg : WebhookConfig) (q r : Pkt6) (ls : List Lease6)
    (d : Option (List Lease6)) (hen : cfg.enabled = true) (hurl : cfg.url ≠ "") :
    ((leases6_committed cfg ⟨some q, some r, some ls, d⟩).2 ≠ [] ↔
      ((q.msg_type = DHCPV6_REQUEST ∨
        (q.msg_type = DHCPV6_SOLICIT ∧ (q.getOption D6O_RAPID_COMMIT).isSome = true)) ∧
       ls.filter (fun l => l.type_ = LeaseType.TYPE_PD) ≠ [])) ∧
    (leases6_committed cfg
        ⟨some ⟨DHCPV6_RENEW, q.relay_info, q.options, q.remote_addr, q.local_addr⟩,
         some r, some ls, d⟩).2 = [] := by
  constructor
  · simp only [leases6_committed]
    rw [if_neg (by simp [hen])]
    by_cases htr : q.msg_type = DHCPV6_REQUEST ∨
        (q.msg_type = DHCPV6_SOLICIT ∧ (q.getOption D6O_RAPID_COMMIT).isSome = true)
    · rw [if_neg (by rcases htr with h | h <;> simp [h])]
      have hn := notifyPdAssigned_ne_nil cfg q r ls hen hurl
      exact ⟨fun h => ⟨htr, hn.mp h⟩, fun h => hn.mpr h.2⟩
    · rw [if_pos (by constructor <;> intro h <;> exact htr (by simp [h]))]
      simp [htr]
  · simp only [leases6_committed]
    rw [if_neg (by simp [hen])]
    rw [if_pos (by refine ⟨by simp [DHCPV6_RENEW, DHCPV6_REQUEST], by simp [DHCPV6_RENEW, DHCPV6_SOLICIT]⟩)]

/-- Claim C5 witness: the amended filter at a concrete REQUEST with one PD
lease (fires) — instantiating the iff — and the RENEW variant (silent). -/
theorem C5_commit_trigger_filter_witness :
    ((leases6_committed
        ⟨"http://hook", 2000, true, false, "http://nb", "tok", true⟩
        ⟨some ⟨3, [], [], ⟨[0, 0, 0, 0, 0, 0, 0, 0, 0, 0, 0, 0, 0, 0, 0, 0]⟩,
              ⟨[0, 0, 0, 0, 0, 0, 0, 0, 0, 0, 0, 0, 0, 0, 0, 0]⟩⟩,
         some ⟨7, [], [], ⟨[0, 0, 0, 0, 0, 0, 0, 0, 0, 0, 0, 0, 0, 0, 0, 0]⟩,
              ⟨[0, 0, 0, 0, 0, 0, 0, 0, 0, 0, 0, 0, 0, 0, 0, 0]⟩⟩,
         some [⟨LeaseType.TYPE_PD, "2001:db8:100::", 56, 7, 1, 300, 600⟩],
         some []⟩).2 ≠ [] ↔
      ((3 = DHCPV6_REQUEST ∨
        (3 = DHCPV6_SOLICIT ∧
          (Pkt6.getOption ⟨3, [], [], ⟨[0, 0, 0, 0, 0, 0, 0, 0, 0, 0, 0, 0, 0, 0, 0, 0]⟩,
              ⟨[0, 0, 0, 0, 0, 0, 0, 0, 0, 0, 0, 0, 0, 0, 0, 0]⟩⟩ D6O_RAPID_COMMIT).isSome = true)) ∧
       ([⟨LeaseType.TYPE_PD, "2001:db8:100::", 56, 7, 1, 300, 600⟩] : List Lease6).filter
           (fun l => l.type_ = LeaseType.TYPE_PD) ≠ [])) ∧
    (leases6_committed
        ⟨"http://hook", 2000, true, false, "http://nb", "tok", true⟩
        ⟨some ⟨DHCPV6_RENEW, [], [], ⟨[0, 0, 0, 0, 0, 0, 0, 0, 0, 0, 0, 0, 0, 0, 0, 0]⟩,
              ⟨[0, 0, 0, 0, 0, 0, 0, 0, 0, 0, 0, 0, 0, 0, 0, 0]⟩⟩,
         some ⟨7, [], [], ⟨[0, 0, 0, 0, 0, 0, 0, 0, 0, 0, 0, 0, 0, 0, 0, 0]⟩,
              ⟨[0, 0, 0, 0, 0, 0, 0, 0, 0, 0, 0, 0, 0, 0, 0, 0]⟩⟩,
         some [⟨LeaseType.TYPE_PD, "2001:db8:100::", 56, 7, 1, 300, 600⟩],
         some []⟩).2 = [] :=
  C5_commit_trigger_filter
    ⟨"http://hook", 2000, true, false, "http://nb", "tok", true⟩
    ⟨3, [], [], ⟨[0, 0, 0, 0, 0, 0, 0, 0, 0, 0, 0, 0, 0, 0, 0, 0]⟩,
      ⟨[0, 0, 0, 0, 0, 0, 0, 0, 0, 0, 0, 0, 0, 0, 0, 0]⟩⟩
    ⟨7, [], [], ⟨[0, 0, 0, 0, 0, 0, 0, 0, 0, 0, 0, 0, 0, 0, 0, 0]⟩,
      ⟨[0, 0, 0, 0, 0, 0, 0, 0, 0, 0, 0, 0, 0, 0, 0, 0]⟩⟩
    [⟨LeaseType.TYPE_PD, "2001:db8:100::", 56, 7, 1, 300, 600⟩]
    (some []) (by decide) (by decide)

/-- Claim C6 counterexample: a query with an empty relay chain (and no
RELAY_MSG option) whose transport remote is the global address
"2001:db8::5".  The derived router IP is that remote address, not the empty
string the claim requires for an empty relay chain. -/
theorem C6_counterexample :
    extractRouterIp
        { msg_type := 3, relay_info := [], options := [],
          remote_addr := ⟨[32, 1, 13, 184, 0, 0, 0, 0, 0, 0, 0, 0, 0, 0, 0, 5]⟩,
          local_addr := ⟨[0, 0, 0, 0, 0, 0, 0, 0, 0, 0, 0, 0, 0, 0, 0, 0]⟩ }
      = "2001:db8::5" ∧
    ("2001:db8::5" : String) ≠ "" := by
  refine ⟨by decide, by decide⟩

/-- Claim C6 amended: `extractRouterIp` keys on the presence of a RELAY_MSG
option, not on the relay chain: with the option present and a non-zero
remote it returns the transport remote address; with the option absent it
still returns the remote address whenever that is non-zero and not
link-local, and returns "unknown" (never "") otherwise. -/
theorem C6_router_ip_behavior (q : Pkt6) :
    (∀ rd, q.getOption D6O_RELAY_MSG = some rd → ¬ q.remote_addr.isV6Zero = true →
      extractRouterIp q = q.remote_addr.toText) ∧
    (q.getOption D6O_RELAY_MSG = none →
      extractRouterIp q =
        if ¬ q.remote_addr.isV6Zero = true ∧
            ¬ strStartsWith q.remote_addr.toText "fe80::" = true then
          q.remote_addr.toText
        else "unknown") := by
  constructor
  · intro rd h hz
    simp only [extractRouterIp, h]
    rw [if_pos hz]
  · intro h
    simp only [extractRouterIp, h]
    unfold routerIpFallback
    by_cases h1 : q.remote_addr.isV6Zero = true
    · simp [h1]
    · by_cases h2 : strStartsWith q.remote_addr.toText "fe80::" = true
      · simp [h1, h2]
      · simp [h1, h2]

/-- Claim C6 witness: the amended no-relay behavior at the concrete query
with global remote "2001:db8::5". -/
theorem C6_router_ip_behavior_witness :
    extractRouterIp
        { msg_type := 3, relay_info := [], options := [],
          remote_addr := ⟨[32, 1, 13, 184, 0, 0, 0, 0, 0, 0, 0, 0, 0, 0, 0, 5]⟩,
          local_addr := ⟨[0, 0, 0, 0, 0, 0, 0, 0, 0, 0, 0, 0, 0, 0, 0, 0]⟩ }
      = if ¬ IOAddress.isV6Zero ⟨[32, 1, 13, 184, 0, 0, 0, 0, 0, 0, 0, 0, 0, 0, 0, 5]⟩ = true ∧
            ¬ strStartsWith (IOAddress.toText ⟨[32, 1, 13, 184, 0, 0, 0, 0, 0, 0, 0, 0, 0, 0, 0, 5]⟩)
                "fe80::" = true then
          IOAddress.toText ⟨[32, 1, 13, 184, 0, 0, 0, 0, 0, 0, 0, 0, 0, 0, 0, 5]⟩
        else "unknown" :=
  (C6_router_ip_behavior
    { msg_type := 3, relay_info := [], options := [],
      remote_addr := ⟨[32, 1, 13, 184, 0, 0, 0, 0, 0, 0, 0, 0, 0, 0, 0, 5]⟩,
      local_addr := ⟨[0, 0, 0, 0, 0, 0, 0, 0, 0, 0, 0, 0, 0, 0, 0, 0]⟩ }).2 rfl

/-- Claim C7 counterexample: a query with an empty relay chain (and zero
local address) yields the sentinel "unknown", not the empty string the
claim requires for an empty relay chain. -/
theorem C7_counterexample :
    extractRouterLinkAddr
        { msg_type := 3, relay_info := [], options := [],
          remote_addr := ⟨[0, 0, 0, 0, 0, 0, 0, 0, 0, 0, 0, 0, 0, 0, 0, 0]⟩,
          local_addr := ⟨[0, 0, 0, 0, 0, 0, 0, 0, 0, 0, 0, 0, 0, 0, 0, 0]⟩ }
      = "unknown" ∧
    ("unknown" : String) ≠ "" := by
  refine ⟨by decide, by decide⟩

/-- Claim C7 amended: with an empty relay chain the derived router
link-address is not empty: it falls back to the packet's local address when
that is non-zero, not link-local and not "::", and to "unknown" otherwise.
Moreover the raw-memory scan used when relay info is present only ever
accepts an address whose text starts with "2001:" — a stricter filter than
the claim's "global unicast". -/
theorem C7_router_link_addr_fallback (q : Pkt6) (hri : q.relay_info = []) :
    extractRouterLinkAddr q =
      (if ¬ q.local_addr.isV6Zero = true ∧
          (¬ strStartsWith q.local_addr.toText "fe80::" = true ∧ q.local_addr.toText ≠ "::") then
        q.local_addr.toText
      else "unknown") ∧
    ∀ (bytes : List Nat) (fuel i : Nat) (s : String),
      scanGlobalFrom bytes fuel i = some s → strStartsWith s "2001:" = true := by
  constructor
  · simp only [extractRouterLinkAddr, hri]
    unfold routerLinkAddrFallback
    by_cases h1 : q.local_addr.isV6Zero = true
    · simp [h1]
    · by_cases h2 : strStartsWith q.local_addr.toText "fe80::" = true
      · simp [h1, h2]
      · by_cases h3 : q.local_addr.toText = "::"
        · simp [h1, h2, h3]
        · simp [h1, h2, h3]
  · intro bytes fuel
    induction fuel with
    | zero => intro i s h; simp [scanGlobalFrom] at h
    | succ fuel ih =>
      intro i s h
      rw [scanGlobalFrom] at h
      by_cases hb : i + 1 < bytes.length
      · rw [if_pos hb] at h
        by_cases hc : (bytes.getD i 0 = 32 ∨ bytes.getD i 0 = 48 ∨ bytes.getD i 0 = 2) ∧
            i + 16 ≤ bytes.length
        · rw [if_pos hc] at h
          by_cases hn : nearFe80 bytes i = true
          · rw [if_pos hn] at h
            exact ih (i + 1) s h
          · rw [if_neg hn] at h
            by_cases ha : ¬ strStartsWith (compressIPv6 ((bytes.drop i).take 16)) "fe80::" = true ∧
                compressIPv6 ((bytes.drop i).take 16) ≠ "::" ∧
                ¬ strStartsWith (compressIPv6 ((bytes.drop i).take 16)) "ff" = true ∧
                strStartsWith (compressIPv6 ((bytes.drop i).take 16)) "2001:" = true
            · rw [if_pos ha] at h
              cases h
              exact ha.2.2.2
            · rw [if_neg ha] at h
              exact ih (i + 1) s h
        · rw [if_neg hc] at h
          exact ih (i + 1) s h
      · rw [if_neg hb] at h
        exact absurd h (by simp)

/-- Claim C7 witness: the amended empty-chain behavior at the concrete
query with zero local address. -/
theorem C7_router_link_addr_fallback_witness :
    extractRouterLinkAddr
        { msg_type := 3, relay_info := [], options := [],
          remote_addr := ⟨[0, 0, 0, 0, 0, 0, 0, 0, 0, 0, 0, 0, 0, 0, 0, 0]⟩,
          local_addr := ⟨[0, 0, 0, 0, 0, 0, 0, 0, 0, 0, 0, 0, 0, 0, 0, 0]⟩ }
      = (if ¬ IOAddress.isV6Zero ⟨[0, 0, 0, 0, 0, 0, 0, 0, 0, 0, 0, 0, 0, 0, 0, 0]⟩ = true ∧
            (¬ strStartsWith (IOAddress.toText ⟨[0, 0, 0, 0, 0, 0, 0, 0, 0, 0, 0, 0, 0, 0, 0, 0]⟩)
                "fe80::" = true ∧
             IOAddress.toText ⟨[0, 0, 0, 0, 0, 0, 0, 0, 0, 0, 0, 0, 0, 0, 0, 0]⟩ ≠ "::") then
          IOAddress.toText ⟨[0, 0, 0, 0, 0, 0, 0, 0, 0, 0, 0, 0, 0, 0, 0, 0]⟩
        else "unknown") ∧
    ∀ (bytes : List Nat) (fuel i : Nat) (s : String),
      scanGlobalFrom bytes fuel i = some s → strStartsWith s "2001:" = true :=
  C7_router_link_addr_fallback
    { msg_type := 3, relay_info := [], options := [],
      remote_addr := ⟨[0, 0, 0, 0, 0, 0, 0, 0, 0, 0, 0, 0, 0, 0, 0, 0]⟩,
      local_addr := ⟨[0, 0, 0, 0, 0, 0, 0, 0, 0, 0, 0, 0, 0, 0, 0, 0]⟩ }
    rfl
